import Mathlib

/-!
Verification development for the LevelingSimulator repository.

The embedding covers:
* `src/backend/esp32_controller.py` — the actuator driver simulation
  (`ESP32Controller`), modelled over exact rationals `ℚ` in place of IEEE
  floats, with explicit state passing for the mutable controller object.
* `src/backend/inverse_kinematics.py` — the `TripodIK` and
  `StewartPlatformIK` solvers, modelled over `ℝ` with `Real.cos`/`Real.sin`.
* `src/backend/api.py` — the `calculate_ik` solver of the HTTP layer.
* `src/backend/leveling_system.py` — one cycle of `_auto_level_loop`,
  modelled as a step relation parametric in the plugged-in IK solver, the
  way the Python class holds `self.ik_solver` as a component.
-/

namespace LevelingSim

/-! ## Actuator driver (`esp32_controller.py`), over ℚ -/

/-- The `ActuatorState` dataclass: one actuator of the ESP32 controller. -/
structure ActuatorState where
  position : ℚ
  target : ℚ
  speed : ℚ
  current : ℚ
  limit_min : Bool
  limit_max : Bool
  enabled : Bool
  deriving Repr, DecidableEq, Inhabited

/-- The mutable state of an `ESP32Controller` object. -/
structure ControllerState where
  min_position : ℚ
  max_position : ℚ
  actuators : List ActuatorState
  emergency_stop : Bool
  calibrated : Bool
  deriving Repr, DecidableEq

/-- Model of `np.clip(x, lo, hi)`: `min(hi, max(x, lo))` (returns `hi` when `lo > hi`). -/
def npClip (x lo hi : ℚ) : ℚ := min hi (max x lo)

/-- Constructor `ESP32Controller.__init__`: every actuator starts at the minimum
position with `limit_min` set, disabled, at the default 20 mm/s speed. -/
def initController (numActuators : ℕ) (minPos maxPos : ℚ) : ControllerState :=
  { min_position := minPos
    max_position := maxPos
    actuators := List.replicate numActuators
      { position := minPos, target := minPos, speed := 20, current := 0,
        limit_min := true, limit_max := false, enabled := false }
    emergency_stop := false
    calibrated := false }

/-- Method `ESP32Controller._update_actuator`: move toward the target at bounded
speed, clamp into `[min_position, max_position]`, refresh limit flags and
the simulated current draw.  Returns early when within 0.5 mm. -/
def updateActuator (minPos maxPos dt : ℚ) (a : ActuatorState) : ActuatorState :=
  let error := a.target - a.position
  if |error| < 1/2 then a
  else
    let maxMovement := a.speed * dt
    let movement := npClip error (-maxMovement) maxMovement
    let newPosition := a.position + movement
    let p1 : ℚ × Bool := if newPosition ≤ minPos then (minPos, true) else (newPosition, false)
    let p2 : ℚ × Bool := if p1.1 ≥ maxPos then (maxPos, true) else (p1.1, false)
    let cur : ℚ := if 1/10 < |movement| then 1/2 + |movement| * (1/10) else 1/10
    { a with position := p2.1, limit_min := p1.2, limit_max := p2.2, current := cur }

/-- One iteration of `ESP32Controller._control_loop`: when the emergency
stop is not active, update every enabled actuator; otherwise do nothing. -/
def controlTick (s : ControllerState) (dt : ℚ) : ControllerState :=
  if s.emergency_stop then s
  else
    { s with actuators :=
        s.actuators.map fun a =>
          if a.enabled then updateActuator s.min_position s.max_position dt a else a }

/-- A sequence of control-loop iterations. -/
def controlTicks (s : ControllerState) (dts : List ℚ) : ControllerState :=
  dts.foldl controlTick s

/-- Method `ESP32Controller.set_targets`: raises (before touching any state) when
the number of supplied targets differs from the actuator count; otherwise
stores each value clamped into `[min_position, max_position]` and records
the indices whose value was clamped (the code prints a warning there). -/
def set_targets (s : ControllerState) (targets : List ℚ) :
    Except Unit (ControllerState × List ℕ) :=
  if targets.length ≠ s.actuators.length then Except.error ()
  else Except.ok
    ({ s with actuators := (List.zipWith
        (fun a t => { a with target := npClip t s.min_position s.max_position })
        s.actuators targets) },
      (List.range targets.length).filter fun i =>
        npClip (targets.getD i 0) s.min_position s.max_position ≠ targets.getD i 0)

/-- Method `ESP32Controller.enable_actuators`. -/
def enable_actuators (s : ControllerState) (b : Bool) : ControllerState :=
  { s with actuators := s.actuators.map fun a => { a with enabled := b } }

/-- Method `ESP32Controller.emergency_stop_trigger`: set the flag, then disable
all actuators. -/
def emergency_stop_trigger (s : ControllerState) : ControllerState :=
  enable_actuators { s with emergency_stop := true } false

/-- Method `ESP32Controller.reset_emergency_stop`: clears only the flag. -/
def reset_emergency_stop (s : ControllerState) : ControllerState :=
  { s with emergency_stop := false }

/-- Method `ESP32Controller.set_speed`. -/
def set_speed (s : ControllerState) (v : ℚ) : ControllerState :=
  { s with actuators := s.actuators.map fun a => { a with speed := v } }

/-- The settling check inside `ESP32Controller.calibrate`: every actuator
within 1 mm of the commanded home (minimum) position. -/
def calibSettled (s : ControllerState) : Bool :=
  s.actuators.all fun a => |a.position - s.min_position| < 1

/-- The bounded wait loop of `calibrate`: check, and while not settled let
the background control loop run; `fuel` bounds the number of checks (the
code bounds the wait by 30 s of wall-clock time). -/
def calibrateWait (dt : ℚ) : ControllerState → ℕ → ControllerState
  | s, 0 => s
  | s, fuel + 1 => if calibSettled s then s else calibrateWait dt (controlTick s dt) fuel

/-- Method `ESP32Controller.calibrate`: enable all actuators, command them to the
minimum position, wait (bounded) for settling, then set `calibrated := true`
— the code sets the flag unconditionally after the wait, on the timeout
path as well as on the settled path. -/
def calibrate (s : ControllerState) (dt : ℚ) (fuel : ℕ) : ControllerState :=
  let s1 := enable_actuators s true
  match set_targets s1 (List.replicate s1.actuators.length s1.min_position) with
  | Except.error _ => s1
  | Except.ok (s2, _) =>
      let s3 := calibrateWait dt s2 fuel
      { s3 with calibrated := true }

/-- The command surface of the controller: every externally callable
state-changing operation (control-loop tick, `set_targets`, `calibrate`,
`enable_actuators`, `emergency_stop_trigger`, `reset_emergency_stop`,
`set_speed`). -/
inductive DriverOp where
  | tick (dt : ℚ)
  | setTargets (ts : List ℚ)
  | calibrateOp (dt : ℚ) (fuel : ℕ)
  | enable (b : Bool)
  | estop
  | resetEstop
  | speed (v : ℚ)

/-- Apply one controller operation; a rejected `set_targets` (arity
mismatch raises before any mutation) leaves the state untouched. -/
def applyOp (s : ControllerState) : DriverOp → ControllerState
  | DriverOp.tick dt => controlTick s dt
  | DriverOp.setTargets ts =>
      match set_targets s ts with
      | Except.error _ => s
      | Except.ok (s2, _) => s2
  | DriverOp.calibrateOp dt fuel => calibrate s dt fuel
  | DriverOp.enable b => enable_actuators s b
  | DriverOp.estop => emergency_stop_trigger s
  | DriverOp.resetEstop => reset_emergency_stop s
  | DriverOp.speed v => set_speed s v

/-- Run a sequence of controller operations from a given state. -/
def runOps (s : ControllerState) (ops : List DriverOp) : ControllerState :=
  ops.foldl applyOp s

/-- Per-actuator invariant: position within travel bounds and each limit
flag set exactly when the position sits on the corresponding bound. -/
def ActInv (minPos maxPos : ℚ) (a : ActuatorState) : Prop :=
  minPos ≤ a.position ∧ a.position ≤ maxPos ∧
  (a.limit_min = true ↔ a.position = minPos) ∧
  (a.limit_max = true ↔ a.position = maxPos)

/-- The controller-wide invariant: every actuator satisfies `ActInv`. -/
def StateInv (s : ControllerState) : Prop :=
  ∀ a ∈ s.actuators, ActInv s.min_position s.max_position a

/-- A concrete controller state with the emergency stop latched and its
single actuator parked at maximum extension: under the latched stop the
control loop never moves it, so a subsequent `calibrate` can never settle
at the minimum position and must time out. -/
def calibBlockedState : ControllerState :=
  { min_position := 300
    max_position := 700
    actuators := [{ position := 700, target := 700, speed := 20, current := 0,
                    limit_min := false, limit_max := true, enabled := false }]
    emergency_stop := true
    calibrated := false }

/-! ## Inverse kinematics (`inverse_kinematics.py`), over ℝ -/

/-- Vectors `[x, y, z]` in real 3-space. -/
abbrev Vec3 : Type := ℝ × ℝ × ℝ

/-- Model of `np.linalg.norm` on a 3-vector. -/
noncomputable def vnorm (v : Vec3) : ℝ :=
  Real.sqrt (v.1 ^ 2 + v.2.1 ^ 2 + v.2.2 ^ 2)

/-- The `Rx` matrix of `rotation_matrix`, applied to a vector. -/
noncomputable def rotX (t : ℝ) (v : Vec3) : Vec3 :=
  (v.1, Real.cos t * v.2.1 - Real.sin t * v.2.2, Real.sin t * v.2.1 + Real.cos t * v.2.2)

/-- The `Ry` matrix of `rotation_matrix`, applied to a vector. -/
noncomputable def rotY (t : ℝ) (v : Vec3) : Vec3 :=
  (Real.cos t * v.1 + Real.sin t * v.2.2, v.2.1, -Real.sin t * v.1 + Real.cos t * v.2.2)

/-- The `Rz` matrix of `rotation_matrix`, applied to a vector. -/
noncomputable def rotZ (t : ℝ) (v : Vec3) : Vec3 :=
  (Real.cos t * v.1 - Real.sin t * v.2.1, Real.sin t * v.1 + Real.cos t * v.2.1, v.2.2)

/-- The combined matrix `rotation_matrix(roll, pitch, yaw) = Rz @ Ry @ Rx`, as a map on vectors. -/
noncomputable def rotationApply (roll pitch yaw : ℝ) (v : Vec3) : Vec3 :=
  rotZ yaw (rotY pitch (rotX roll v))

/-- The `PlatformConfig` dataclass of `inverse_kinematics.py` (meters). -/
structure PlatformConfig where
  length : ℝ
  width : ℝ
  min_height : ℝ
  max_height : ℝ
  actuator_stroke : ℝ

/-- The default `PlatformConfig` used by `leveling_system.py`
(`length=1.83, width=1.22, min_height=0.3, max_height=0.7, stroke=0.4`). -/
noncomputable def platformConfigDefault : PlatformConfig :=
  { length := 183 / 100, width := 122 / 100, min_height := 3 / 10,
    max_height := 7 / 10, actuator_stroke := 2 / 5 }

/-- The `TripodIK.base_points` array. -/
noncomputable def tripodBasePoint (c : PlatformConfig) : Fin 3 → Vec3
  | 0 => (c.length / 3, 0, 0)
  | 1 => (-(c.length / 6), c.width / 2, 0)
  | 2 => (-(c.length / 6), -(c.width / 2), 0)

/-- The `TripodIK.platform_points` array: the base points raised to `min_height`. -/
noncomputable def tripodPlatformPoint (c : PlatformConfig) : Fin 3 → Vec3
  | 0 => (c.length / 3, 0, c.min_height)
  | 1 => (-(c.length / 6), c.width / 2, c.min_height)
  | 2 => (-(c.length / 6), -(c.width / 2), c.min_height)

/-- The transform of a platform point inside `TripodIK.solve`: translate to
the (height-offset) center, rotate, translate back. -/
noncomputable def tripodRotated (c : PlatformConfig) (roll pitch yaw hoff : ℝ)
    (p : Vec3) : Vec3 :=
  let center : Vec3 := (0, 0, c.min_height + hoff)
  rotationApply roll pitch yaw (p - center) + center

/-- Actuator length `i` computed by `TripodIK.solve`. -/
noncomputable def tripodLength (c : PlatformConfig) (roll pitch yaw hoff : ℝ)
    (i : Fin 3) : ℝ :=
  vnorm (tripodRotated c roll pitch yaw hoff (tripodPlatformPoint c i) - tripodBasePoint c i)

/-- The `valid` flag of `TripodIK.solve`: every length within
`[min_height, min_height + actuator_stroke]`. -/
def TripodValid (c : PlatformConfig) (roll pitch yaw hoff : ℝ) : Prop :=
  ∀ i : Fin 3, c.min_height ≤ tripodLength c roll pitch yaw hoff i ∧
    tripodLength c roll pitch yaw hoff i ≤ c.min_height + c.actuator_stroke

/-- The `StewartPlatformIK` base hexagon radius, `min(length, width) / 3`. -/
noncomputable def stewartBaseRadius (c : PlatformConfig) : ℝ :=
  min c.length c.width / 3

/-- The `StewartPlatformIK.base_points` array: hexagon of radius `stewartBaseRadius`
at angles `2πi/6 + π/6`, in the base plane. -/
noncomputable def stewartBasePoint (c : PlatformConfig) (i : Fin 6) : Vec3 :=
  let r := stewartBaseRadius c
  let angle := 2 * Real.pi * i / 6 + Real.pi / 6
  (r * Real.cos angle, r * Real.sin angle, 0)

/-- The `StewartPlatformIK.platform_points` array: hexagon of radius
`0.8 · stewartBaseRadius` at angles offset a further 30°, raised to
`min_height`. -/
noncomputable def stewartPlatformPoint (c : PlatformConfig) (i : Fin 6) : Vec3 :=
  let r := stewartBaseRadius c * (8 / 10)
  let angle := 2 * Real.pi * i / 6 + Real.pi / 6 + Real.pi / 6
  (r * Real.cos angle, r * Real.sin angle, c.min_height)

/-- The transform of a platform point inside `StewartPlatformIK.solve`:
translate to origin (by the nominal height), rotate, translate to the
desired center. -/
noncomputable def stewartRotated (c : PlatformConfig)
    (roll pitch yaw xo yo zo : ℝ) (p : Vec3) : Vec3 :=
  let center : Vec3 := (xo, yo, c.min_height + zo)
  rotationApply roll pitch yaw (p - (0, 0, c.min_height)) + center

/-- Actuator length `i` computed by `StewartPlatformIK.solve`. -/
noncomputable def stewartLength (c : PlatformConfig)
    (roll pitch yaw xo yo zo : ℝ) (i : Fin 6) : ℝ :=
  vnorm (stewartRotated c roll pitch yaw xo yo zo (stewartPlatformPoint c i) -
    stewartBasePoint c i)

/-! ## HTTP-layer solver (`api.py`), over ℝ -/

/-- The `PlatformConfigModel` of `api.py` (millimeters). -/
structure ApiGeometry where
  base_radius : ℝ
  platform_radius : ℝ
  nominal_leg_length : ℝ
  min_leg_length : ℝ
  max_leg_length : ℝ

/-- The default geometry of `PlatformConfigModel`. -/
noncomputable def defaultApiGeometry : ApiGeometry :=
  { base_radius := 120, platform_radius := 70, nominal_leg_length := 150,
    min_leg_length := 100, max_leg_length := 200 }

/-- The `PoseRequest` model: translations in mm, angles in degrees. -/
structure ApiPose where
  x : ℝ
  y : ℝ
  z : ℝ
  roll : ℝ
  pitch : ℝ
  yaw : ℝ

/-- Model of `np.deg2rad`. -/
noncomputable def deg2rad (d : ℝ) : ℝ := d * Real.pi / 180

/-- The `get_configuration_mapping` entries: base count, platform count and
the leg-pairing table. -/
structure ConfigMapping where
  num_base : ℕ
  num_platform : ℕ
  leg_pairs : List ℕ

/-- Function `get_configuration_mapping`, with the `"6-3"` default for unknown keys. -/
def getConfigurationMapping (c : String) : ConfigMapping :=
  if c = "3-3" then ⟨3, 3, List.range 3⟩
  else if c = "4-4" then ⟨4, 4, List.range 4⟩
  else if c = "6-3" then ⟨6, 3, [0, 0, 1, 1, 2, 2]⟩
  else if c = "6-3-asymmetric" then ⟨6, 3, [0, 1, 1, 2, 2, 0]⟩
  else if c = "6-3-redundant" then ⟨6, 3, [0, 1, 1, 2, 2, 0]⟩
  else if c = "6-6" then ⟨6, 6, List.range 6⟩
  else if c = "8-8" then ⟨8, 8, List.range 8⟩
  else ⟨6, 3, [0, 0, 1, 1, 2, 2]⟩

/-- Function `generate_points` of `api.py`: point `i` of `n` on a circle. -/
noncomputable def generatePoint (n : ℕ) (radius offset : ℝ) (i : ℕ) : Vec3 :=
  let angle := 2 * Real.pi * i / n + offset
  (radius * Real.cos angle, radius * Real.sin angle, 0)

/-- The platform angle offset in `calculate_ik`:
`π / num_platform if num_platform < 6 else π / 6`. -/
noncomputable def apiPlatformOffset (numPlatform : ℕ) : ℝ :=
  if numPlatform < 6 then Real.pi / numPlatform else Real.pi / 6

/-- The platform anchor referenced by leg `i` in `calculate_ik`, after the
code overwrites its `z` with the nominal leg length. -/
noncomputable def apiPlatformAnchor (geom : ApiGeometry) (cm : ConfigMapping)
    (i : ℕ) : Vec3 :=
  let pp := generatePoint cm.num_platform geom.platform_radius
    (apiPlatformOffset cm.num_platform) (cm.leg_pairs.getD i 0)
  (pp.1, pp.2.1, geom.nominal_leg_length)

/-- The translation vector of `calculate_ik`:
`[x, y, z + nominal_leg_length]`. -/
noncomputable def apiTranslation (geom : ApiGeometry) (pose : ApiPose) : Vec3 :=
  (pose.x, pose.y, pose.z + geom.nominal_leg_length)

/-- The transform applied by `calculate_ik` to an anchor: rotate (angles converted from
degrees), then add the translation. -/
noncomputable def apiRotatedPoint (geom : ApiGeometry) (pose : ApiPose)
    (anchor : Vec3) : Vec3 :=
  rotationApply (deg2rad pose.roll) (deg2rad pose.pitch) (deg2rad pose.yaw) anchor +
    apiTranslation geom pose

/-- Leg length `i` computed by `calculate_ik`. -/
noncomputable def apiLegLength (geom : ApiGeometry) (cm : ConfigMapping)
    (pose : ApiPose) (i : ℕ) : ℝ :=
  vnorm (apiRotatedPoint geom pose (apiPlatformAnchor geom cm i) -
    generatePoint cm.num_base geom.base_radius 0 i)

/-- The `valid` flag of `calculate_ik`: every leg length within
`[min_leg_length, max_leg_length]`. -/
def ApiValid (geom : ApiGeometry) (cm : ConfigMapping) (pose : ApiPose) : Prop :=
  ∀ i < cm.num_base,
    geom.min_leg_length ≤ apiLegLength geom cm pose i ∧
    apiLegLength geom cm pose i ≤ geom.max_leg_length

/-- Modelled from the spec (§4.1 step 3), for refinement comparison only:
`rotated = R·(anchor - pivot) + pivot + translation`. -/
noncomputable def specRotatedAnchor (roll pitch yaw : ℝ)
    (pivot translation anchor : Vec3) : Vec3 :=
  rotationApply roll pitch yaw (anchor - pivot) + pivot + translation

/-! ## Leveling orchestrator (`leveling_system.py`) -/

/-- An IMU orientation sample, in degrees, as consumed by
`_auto_level_loop`. -/
structure OrientationSample where
  roll : ℝ
  pitch : ℝ
  yaw : ℝ

/-- The `LevelingConfig` dataclass. -/
structure LevelingPolicy where
  level_threshold : ℝ
  update_rate : ℝ
  deadband : ℝ
  max_correction_rate : ℝ

/-- The default `LevelingConfig`
(`level_threshold=2, update_rate=2, deadband=0.5, max_correction_rate=5`). -/
noncomputable def levelingPolicyDefault : LevelingPolicy :=
  { level_threshold := 2, update_rate := 2, deadband := 1 / 2,
    max_correction_rate := 5 }

/-- The value `np.linalg.norm(current_orientation - self.last_orientation)` in
`_auto_level_loop`. -/
noncomputable def sampleDiffNorm (a b : OrientationSample) : ℝ :=
  vnorm (a.roll - b.roll, a.pitch - b.pitch, a.yaw - b.yaw)

/-- The tilt `tilt_mag = sqrt(roll² + pitch²)`. -/
noncomputable def tiltMagnitude (a : OrientationSample) : ℝ :=
  Real.sqrt (a.roll ^ 2 + a.pitch ^ 2)

/-- The orchestrator state touched by one `_auto_level_loop` cycle. -/
structure OrchState where
  last_orientation : OrientationSample
  leveling_enabled : Bool

/-- One cycle of `PlatformLevelingSystem._auto_level_loop`, parametric in
the plugged-in solver (`self.ik_solver.level_platform` composed with the
unit conversions of `level_once`): `solveFn` gives the commanded target
lengths in mm and `SolveValid` the solver's validity flag.  The output
`Option` is the `CMD_SET_TARGET` command sent to the controller (`none`
when the cycle commands no motion).  The code updates `last_orientation`
after every `level_once()` call, ignoring its return value. -/
inductive AutoLevelCycle (solveFn : OrientationSample → List ℝ)
    (SolveValid : OrientationSample → Prop) (pol : LevelingPolicy) :
    OrchState → OrientationSample → OrchState → Option (List ℝ) → Prop where
  | skip_disabled (s : OrchState) (a : OrientationSample)
      (h : s.leveling_enabled = false) :
      AutoLevelCycle solveFn SolveValid pol s a s none
  | skip_deadband (s : OrchState) (a : OrientationSample)
      (he : s.leveling_enabled = true)
      (hd : sampleDiffNorm a s.last_orientation ≤ pol.deadband) :
      AutoLevelCycle solveFn SolveValid pol s a s none
  | skip_below_threshold (s : OrchState) (a : OrientationSample)
      (he : s.leveling_enabled = true)
      (hd : pol.deadband < sampleDiffNorm a s.last_orientation)
      (ht : tiltMagnitude a ≤ pol.level_threshold) :
      AutoLevelCycle solveFn SolveValid pol s a s none
  | act_valid (s : OrchState) (a : OrientationSample)
      (he : s.leveling_enabled = true)
      (hd : pol.deadband < sampleDiffNorm a s.last_orientation)
      (ht : pol.level_threshold < tiltMagnitude a)
      (hv : SolveValid a) :
      AutoLevelCycle solveFn SolveValid pol s a
        { s with last_orientation := a } (some (solveFn a))
  | act_invalid (s : OrchState) (a : OrientationSample)
      (he : s.leveling_enabled = true)
      (hd : pol.deadband < sampleDiffNorm a s.last_orientation)
      (ht : pol.level_threshold < tiltMagnitude a)
      (hv : ¬ SolveValid a) :
      AutoLevelCycle solveFn SolveValid pol s a
        { s with last_orientation := a } none

/-- The tripod instantiation of the orchestrator's solver: `level_once`
converts the sample from degrees to radians, calls
`TripodIK.level_platform` (which negates roll and pitch) and converts the
resulting lengths to millimeters. -/
noncomputable def tripodCommand (c : PlatformConfig) (a : OrientationSample) :
    List ℝ :=
  (List.finRange 3).map fun i =>
    1000 * tripodLength c (-(deg2rad a.roll)) (-(deg2rad a.pitch)) 0 0 i

/-- The validity flag of the tripod instantiation of `level_once`. -/
def TripodCommandValid (c : PlatformConfig) (a : OrientationSample) : Prop :=
  TripodValid c (-(deg2rad a.roll)) (-(deg2rad a.pitch)) 0 0

/-! ## Helper lemmas -/

lemma controlTick_estop (s : ControllerState) (d : ℚ)
    (h : s.emergency_stop = true) : controlTick s d = s := by
  simp [controlTick, h]

lemma controlTicks_estop (s : ControllerState) (dts : List ℚ)
    (h : s.emergency_stop = true) : controlTicks s dts = s := by
  induction dts with
  | nil => rfl
  | cons d ds ih =>
      show controlTicks (controlTick s d) ds = s
      rw [controlTick_estop s d h, ih]

lemma controlTick_all_disabled (s : ControllerState) (d : ℚ)
    (h : ∀ a ∈ s.actuators, a.enabled = false) : controlTick s d = s := by
  unfold controlTick
  split
  · rfl
  · have hm : (s.actuators.map fun a =>
        if a.enabled then updateActuator s.min_position s.max_position d a else a)
        = s.actuators := by
      conv_rhs => rw [← List.map_id s.actuators]
      exact List.map_congr_left fun a ha => by simp [h a ha]
    rw [hm]

lemma controlTicks_all_disabled (s : ControllerState) (dts : List ℚ)
    (h : ∀ a ∈ s.actuators, a.enabled = false) : controlTicks s dts = s := by
  induction dts with
  | nil => rfl
  | cons d ds ih =>
      show controlTicks (controlTick s d) ds = s
      rw [controlTick_all_disabled s d h, ih]

/-! ## Theorems for the claims -/

/-- C3: once the emergency stop is triggered, every subsequent control-loop
tick leaves every actuator's position (indeed the whole actuator list)
unchanged, and the emergency-stop flag stays latched, for as long as
`reset_emergency_stop` is not called. -/
theorem emergency_stop_freezes_all_ticks (s : ControllerState) (dts : List ℚ)
    (h : s.emergency_stop = true) :
    (controlTicks s dts).actuators = s.actuators ∧
    (controlTicks s dts).emergency_stop = true := by
  rw [controlTicks_estop s dts h]
  exact ⟨rfl, h⟩

/-- Witness for C3 at a concrete post-trigger state and two 50 Hz ticks. -/
theorem emergency_stop_freezes_all_ticks_witness :
    (emergency_stop_trigger (initController 3 300 700)).emergency_stop = true ∧
    (controlTicks (emergency_stop_trigger (initController 3 300 700))
        [1/50, 1/50]).actuators
      = (emergency_stop_trigger (initController 3 300 700)).actuators :=
  ⟨rfl, (emergency_stop_freezes_all_ticks _ [1/50, 1/50] rfl).1⟩

/-- C10: `reset_emergency_stop` after a trigger clears only the flag:
every actuator is left disabled and otherwise exactly as before the
trigger (same position, target, speed), and any number of subsequent
control-loop ticks moves nothing until an explicit enable. -/
theorem reset_emergency_stop_frame (s : ControllerState) (dts : List ℚ) :
    (reset_emergency_stop (emergency_stop_trigger s)).emergency_stop = false ∧
    (reset_emergency_stop (emergency_stop_trigger s)).actuators
      = s.actuators.map (fun a => { a with enabled := false }) ∧
    controlTicks (reset_emergency_stop (emergency_stop_trigger s)) dts
      = reset_emergency_stop (emergency_stop_trigger s) := by
  refine ⟨rfl, rfl, ?_⟩
  apply controlTicks_all_disabled
  intro a ha
  simp only [reset_emergency_stop, emergency_stop_trigger, enable_actuators,
    List.mem_map] at ha
  obtain ⟨b, _, hb⟩ := ha
  rw [← hb]

/-- C5: with nonnegative speed and tick duration, and the position inside
its travel bounds, one `_update_actuator` step changes the position by at
most `speed · dt` in absolute value, whatever the target error magnitude. -/
theorem update_actuator_rate_limited (minPos maxPos dt : ℚ) (a : ActuatorState)
    (hs : 0 ≤ a.speed) (hdt : 0 ≤ dt)
    (hlo : minPos ≤ a.position) (hhi : a.position ≤ maxPos) :
    |(updateActuator minPos maxPos dt a).position - a.position| ≤ a.speed * dt := by
  have hm : (0 : ℚ) ≤ a.speed * dt := mul_nonneg hs hdt
  have hclip1 : npClip (a.target - a.position) (-(a.speed * dt)) (a.speed * dt)
      ≤ a.speed * dt := min_le_left _ _
  have hclip2 : -(a.speed * dt)
      ≤ npClip (a.target - a.position) (-(a.speed * dt)) (a.speed * dt) :=
    le_min (by linarith) (le_max_right _ _)
  simp only [updateActuator]
  split
  · simpa using hm
  · set mov := npClip (a.target - a.position) (-(a.speed * dt)) (a.speed * dt) with hmov
    by_cases h1 : a.position + mov ≤ minPos
    · by_cases h2 : minPos ≥ maxPos
      · simp only [h1, if_true, if_pos, h2, ite_true]
        rw [abs_le]
        constructor <;> simp <;> linarith
      · simp only [h1, if_true, if_pos, h2, ite_false]
        rw [abs_le]
        constructor <;> simp <;> linarith
    · by_cases h2 : a.position + mov ≥ maxPos
      · simp only [if_neg h1, if_pos h2]
        rw [abs_le]
        constructor <;> simp <;> linarith
      · simp only [if_neg h1, if_neg h2]
        rw [abs_le]
        constructor <;> simp <;> linarith

/-- Witness for C5: an enabled actuator at the minimum position commanded
100 mm away moves at most `20 mm/s · 0.02 s` in one tick. -/
theorem update_actuator_rate_limited_witness :
    |(updateActuator 300 700 (1/50)
        { position := 300, target := 400, speed := 20, current := 0,
          limit_min := true, limit_max := false, enabled := true }).position
      - 300| ≤ 20 * (1/50) :=
  update_actuator_rate_limited 300 700 (1/50)
    { position := 300, target := 400, speed := 20, current := 0,
      limit_min := true, limit_max := false, enabled := true }
    (by norm_num) (by norm_num) (by norm_num) (by norm_num)

/-- C6: `set_targets` rejects an arity mismatch with an error and no state
change (atomic rejection); on a matching count it stores each value clamped
into `[min_position, max_position]` (leaving positions untouched), the
stored target lies within the bounds whenever they are ordered, and index
`i` is reported as clamped exactly when clamping changed its value. -/
theorem set_targets_checked (s : ControllerState) (ts : List ℚ) :
    (ts.length ≠ s.actuators.length → set_targets s ts = Except.error ()) ∧
    (ts.length = s.actuators.length →
      ∃ s2 w, set_targets s ts = Except.ok (s2, w) ∧
        s2.actuators.length = s.actuators.length ∧
        s2.min_position = s.min_position ∧ s2.max_position = s.max_position ∧
        ∀ i, i < ts.length →
          (s2.actuators.getD i default).target
            = npClip (ts.getD i 0) s.min_position s.max_position ∧
          (s2.actuators.getD i default).position
            = (s.actuators.getD i default).position ∧
          (s.min_position ≤ s.max_position →
            s.min_position ≤ (s2.actuators.getD i default).target ∧
            (s2.actuators.getD i default).target ≤ s.max_position) ∧
          (i ∈ w ↔ npClip (ts.getD i 0) s.min_position s.max_position ≠ ts.getD i 0)) := by
  constructor
  · intro h
    simp [set_targets, h]
  · intro h
    have hne : ¬ ts.length ≠ s.actuators.length := by simp [h]
    refine ⟨{ s with actuators := (List.zipWith
        (fun a t => { a with target := npClip t s.min_position s.max_position })
        s.actuators ts) },
      (List.range ts.length).filter (fun i =>
        npClip (ts.getD i 0) s.min_position s.max_position ≠ ts.getD i 0),
      ?_, ?_, rfl, rfl, ?_⟩
    · unfold set_targets
      rw [if_neg hne]
    · simp [List.length_zipWith, h]
    · intro i hi
      have hi2 : i < s.actuators.length := h ▸ hi
      have hzl : i < (List.zipWith
          (fun a t => { a with target := npClip t s.min_position s.max_position })
          s.actuators ts).length := by
        simpa [List.length_zipWith, h] using hi
      have hget : (List.zipWith
          (fun a t => { a with target := npClip t s.min_position s.max_position })
          s.actuators ts).getD i default
          = { s.actuators.get ⟨i, hi2⟩ with
              target := npClip (ts.get ⟨i, hi⟩) s.min_position s.max_position } := by
        rw [List.getD_eq_getElem _ _ hzl, List.getElem_zipWith]
        simp
      have hts : ts.getD i 0 = ts.get ⟨i, hi⟩ := by
        rw [List.getD_eq_getElem _ _ hi]
        simp
      refine ⟨?_, ?_, ?_, ?_⟩
      · rw [hget, hts]
      · rw [hget, List.getD_eq_getElem _ _ hi2]
        simp
      · intro hmm
        rw [hget]
        exact ⟨le_min hmm (le_max_right _ _), min_le_left _ _⟩
      · simp [List.mem_filter, List.mem_range, hi]

/-- Witness for C6 at concrete inputs: two targets for a two-actuator
controller, one inside the range and one clamped from above. -/
theorem set_targets_checked_witness :
    ([400, 900] : List ℚ).length = (initController 2 300 700).actuators.length ∧
    (∃ s2 w, set_targets (initController 2 300 700) [400, 900] = Except.ok (s2, w) ∧
      s2.actuators.length = (initController 2 300 700).actuators.length ∧
      s2.min_position = (initController 2 300 700).min_position ∧
      s2.max_position = (initController 2 300 700).max_position ∧
      ∀ i, i < ([400, 900] : List ℚ).length →
        (s2.actuators.getD i default).target
          = npClip (([400, 900] : List ℚ).getD i 0)
              (initController 2 300 700).min_position
              (initController 2 300 700).max_position ∧
        (s2.actuators.getD i default).position
          = ((initController 2 300 700).actuators.getD i default).position ∧
        ((initController 2 300 700).min_position
            ≤ (initController 2 300 700).max_position →
          (initController 2 300 700).min_position
            ≤ (s2.actuators.getD i default).target ∧
          (s2.actuators.getD i default).target
            ≤ (initController 2 300 700).max_position) ∧
        (i ∈ w ↔ npClip (([400, 900] : List ℚ).getD i 0)
            (initController 2 300 700).min_position
            (initController 2 300 700).max_position
          ≠ ([400, 900] : List ℚ).getD i 0)) :=
  ⟨by simp [initController],
    (set_targets_checked (initController 2 300 700) [400, 900]).2
      (by simp [initController])⟩

lemma calibrateWait_estop (dt : ℚ) (s : ControllerState) (fuel : ℕ)
    (h : s.emergency_stop = true) : calibrateWait dt s fuel = s := by
  induction fuel with
  | zero => rfl
  | succ n ih =>
      unfold calibrateWait
      rw [controlTick_estop s dt h, ih]
      split <;> rfl

/-- C2 amended: `calibrate` always returns with `calibrated = true` — the
code sets the flag unconditionally after the bounded wait, on the timeout
path exactly as on the settled path. -/
theorem calibrate_always_sets_flag (s : ControllerState) (dt : ℚ) (fuel : ℕ) :
    (calibrate s dt fuel).calibrated = true := by
  have hlen : ¬ (List.replicate (enable_actuators s true).actuators.length
      (enable_actuators s true).min_position).length
      ≠ (enable_actuators s true).actuators.length := by
    simp
  simp only [calibrate, set_targets, if_neg hlen]

/-- C2 counterexample: from a state whose emergency stop is latched with
the single actuator parked at 700 mm, `calibrate` can never bring it
within the 1 mm settle tolerance of the 300 mm home position — the wait
times out — yet the call returns with `calibrated = true`, not false. -/
theorem calibrate_timeout_counterexample :
    (calibrate calibBlockedState (1/50) 300).calibrated = true ∧
    calibSettled (calibrate calibBlockedState (1/50) 300) = false := by
  have hlen : ¬ (List.replicate (enable_actuators calibBlockedState true).actuators.length
      (enable_actuators calibBlockedState true).min_position).length
      ≠ (enable_actuators calibBlockedState true).actuators.length := by
    simp
  constructor
  · simp only [calibrate, set_targets, if_neg hlen]
  · simp only [calibrate, set_targets, if_neg hlen]
    rw [calibrateWait_estop _ _ _ (by rfl)]
    simp [calibSettled, enable_actuators, calibBlockedState, npClip]
    norm_num

lemma updateActuator_actInv (minPos maxPos dt : ℚ) (a : ActuatorState)
    (hmm : minPos < maxPos) (h : ActInv minPos maxPos a) :
    ActInv minPos maxPos (updateActuator minPos maxPos dt a) := by
  simp only [updateActuator]
  split
  · exact h
  · set mov := npClip (a.target - a.position) (-(a.speed * dt)) (a.speed * dt) with hmov
    by_cases h1 : a.position + mov ≤ minPos
    · rw [if_pos h1, if_neg (not_le.mpr hmm)]
      exact ⟨le_refl _, hmm.le, by simp, by simp [hmm.ne]⟩
    · rw [if_neg h1]
      by_cases h2 : a.position + mov ≥ maxPos
      · rw [if_pos h2]
        exact ⟨hmm.le, le_refl _, by simp [hmm.ne.symm], by simp⟩
      · rw [if_neg h2]
        push_neg at h1 h2
        exact ⟨h1.le, h2.le, by simp [h1.ne.symm], by simp [h2.ne]⟩

lemma controlTick_bounds (s : ControllerState) (dt : ℚ) :
    (controlTick s dt).min_position = s.min_position ∧
    (controlTick s dt).max_position = s.max_position := by
  unfold controlTick
  split <;> exact ⟨rfl, rfl⟩

lemma controlTick_stateInv (s : ControllerState) (dt : ℚ)
    (hmm : s.min_position < s.max_position) (h : StateInv s) :
    StateInv (controlTick s dt) := by
  unfold controlTick
  split
  · exact h
  · intro a ha
    simp only [List.mem_map] at ha
    obtain ⟨x, hx, rfl⟩ := ha
    by_cases he : x.enabled
    · simp only [he, if_true]
      exact updateActuator_actInv _ _ _ _ hmm (h x hx)
    · simp only [he, if_false]
      exact h x hx

lemma mem_zipWith {α β γ : Type} (f : α → β → γ) (l1 : List α) (l2 : List β)
    (x : γ) (hx : x ∈ List.zipWith f l1 l2) : ∃ a ∈ l1, ∃ b ∈ l2, x = f a b := by
  induction l1 generalizing l2 with
  | nil => simp [List.zipWith] at hx
  | cons a as ih =>
      cases l2 with
      | nil => simp [List.zipWith] at hx
      | cons b bs =>
          simp only [List.zipWith, List.mem_cons] at hx
          rcases hx with rfl | hx2
          · exact ⟨a, by simp, b, by simp, rfl⟩
          · obtain ⟨a2, ha2, b2, hb2, rfl⟩ := ih bs hx2
            exact ⟨a2, by simp [ha2], b2, by simp [hb2], rfl⟩

lemma set_targets_inv (s : ControllerState) (ts : List ℚ)
    (s2 : ControllerState) (w : List ℕ)
    (hst : set_targets s ts = Except.ok (s2, w)) (h : StateInv s) :
    s2.min_position = s.min_position ∧ s2.max_position = s.max_position ∧
    StateInv s2 := by
  unfold set_targets at hst
  split at hst
  · cases hst
  · rw [Except.ok.injEq, Prod.mk.injEq] at hst
    obtain ⟨h1, h2⟩ := hst
    subst h1
    refine ⟨rfl, rfl, ?_⟩
    intro a ha
    obtain ⟨x, hx, t, ht, rfl⟩ := mem_zipWith _ _ _ _ ha
    exact h x hx

lemma enable_stateInv (s : ControllerState) (b : Bool) (h : StateInv s) :
    StateInv (enable_actuators s b) := by
  intro a ha
  simp only [enable_actuators, List.mem_map] at ha
  obtain ⟨x, hx, rfl⟩ := ha
  exact h x hx

lemma set_speed_stateInv (s : ControllerState) (v : ℚ) (h : StateInv s) :
    StateInv (set_speed s v) := by
  intro a ha
  simp only [set_speed, List.mem_map] at ha
  obtain ⟨x, hx, rfl⟩ := ha
  exact h x hx

lemma calibrateWait_inv (dt : ℚ) (fuel : ℕ) :
    ∀ s : ControllerState, s.min_position < s.max_position → StateInv s →
      (calibrateWait dt s fuel).min_position = s.min_position ∧
      (calibrateWait dt s fuel).max_position = s.max_position ∧
      StateInv (calibrateWait dt s fuel) := by
  induction fuel with
  | zero => exact fun s _ h => ⟨rfl, rfl, h⟩
  | succ n ih =>
      intro s hmm h
      unfold calibrateWait
      split
      · exact ⟨rfl, rfl, h⟩
      · have hb := controlTick_bounds s dt
        have h2 := controlTick_stateInv s dt hmm h
        have h3 := ih (controlTick s dt) (by rw [hb.1, hb.2]; exact hmm) h2
        exact ⟨by rw [h3.1, hb.1], by rw [h3.2.1, hb.2], h3.2.2⟩

lemma applyOp_inv (s : ControllerState) (op : DriverOp)
    (hmm : s.min_position < s.max_position) (h : StateInv s) :
    (applyOp s op).min_position = s.min_position ∧
    (applyOp s op).max_position = s.max_position ∧
    StateInv (applyOp s op) := by
  cases op with
  | tick dt =>
      have hb := controlTick_bounds s dt
      exact ⟨hb.1, hb.2, controlTick_stateInv s dt hmm h⟩
  | setTargets ts =>
      simp only [applyOp]
      cases hst : set_targets s ts with
      | error e => exact ⟨rfl, rfl, h⟩
      | ok p =>
          obtain ⟨s2, w⟩ := p
          exact set_targets_inv s ts s2 w hst h
  | calibrateOp dt fuel =>
      simp only [applyOp, calibrate]
      cases hst : set_targets (enable_actuators s true)
          (List.replicate (enable_actuators s true).actuators.length
            (enable_actuators s true).min_position) with
      | error e => exact ⟨rfl, rfl, enable_stateInv s true h⟩
      | ok p =>
          obtain ⟨s2, w⟩ := p
          have he : StateInv (enable_actuators s true) := enable_stateInv s true h
          have hs2 := set_targets_inv _ _ _ _ hst he
          have hwait := calibrateWait_inv dt fuel s2
            (by rw [hs2.1, hs2.2.1]; exact hmm) hs2.2.2
          refine ⟨?_, ?_, ?_⟩
          · show (calibrateWait dt s2 fuel).min_position = s.min_position
            rw [hwait.1, hs2.1]
            rfl
          · show (calibrateWait dt s2 fuel).max_position = s.max_position
            rw [hwait.2.1, hs2.2.1]
            rfl
          · intro a ha
            exact hwait.2.2 a ha
  | enable b => exact ⟨rfl, rfl, enable_stateInv s b h⟩
  | estop =>
      refine ⟨rfl, rfl, ?_⟩
      exact enable_stateInv { s with emergency_stop := true } false
        (fun a ha => h a ha)
  | resetEstop => exact ⟨rfl, rfl, fun a ha => h a ha⟩
  | speed v => exact ⟨rfl, rfl, set_speed_stateInv s v h⟩

lemma runOps_inv (ops : List DriverOp) :
    ∀ s : ControllerState, s.min_position < s.max_position → StateInv s →
      StateInv (runOps s ops) := by
  induction ops with
  | nil => exact fun s _ h => h
  | cons op rest ih =>
      intro s hmm h
      have hop := applyOp_inv s op hmm h
      exact ih (applyOp s op) (by rw [hop.1, hop.2.1]; exact hmm) hop.2.2

lemma initController_inv (n : ℕ) (minPos maxPos : ℚ) (hmm : minPos < maxPos) :
    StateInv (initController n minPos maxPos) := by
  intro a ha
  have := List.eq_of_mem_replicate ha
  subst this
  exact ⟨le_refl _, hmm.le, by simp [initController],
    by simp [initController, hmm.ne]⟩

/-- C4: starting from the constructor state with ordered travel bounds,
after any sequence of controller operations (ticks, `set_targets`,
`calibrate`, enable, emergency stop, reset, `set_speed`) every actuator's
position lies in `[min_position, max_position]`, and each limit flag is
set exactly when the position equals the corresponding bound. -/
theorem controller_invariant_reachable (n : ℕ) (minPos maxPos : ℚ)
    (hmm : minPos < maxPos) (ops : List DriverOp) :
    StateInv (runOps (initController n minPos maxPos) ops) :=
  runOps_inv ops (initController n minPos maxPos) hmm
    (initController_inv n minPos maxPos hmm)

/-- Witness for C4: the default three-actuator geometry after an enable, a
tick, a `set_targets` and an emergency stop. -/
theorem controller_invariant_reachable_witness :
    (300 : ℚ) < 700 ∧
    StateInv (runOps (initController 3 300 700)
      [DriverOp.enable true, DriverOp.tick (1/50),
       DriverOp.setTargets [400, 500, 900], DriverOp.estop]) :=
  ⟨by norm_num,
    controller_invariant_reachable 3 300 700 (by norm_num)
      [DriverOp.enable true, DriverOp.tick (1/50),
       DriverOp.setTargets [400, 500, 900], DriverOp.estop]⟩

lemma rotationApply_zero (v : Vec3) : rotationApply 0 0 0 v = v := by
  simp [rotationApply, rotX, rotY, rotZ]

lemma vec3_eq (a b : Vec3) (h1 : a.1 = b.1) (h2 : a.2.1 = b.2.1)
    (h3 : a.2.2 = b.2.2) : a = b := by
  obtain ⟨a1, a2, a3⟩ := a
  obtain ⟨b1, b2, b3⟩ := b
  simp only at h1 h2 h3
  rw [h1, h2, h3]

/-- C1 amended: for the tripod topology the level pose (all angles and the
height offset zero) yields every actuator length exactly equal to the
nominal platform height. -/
theorem tripod_level_pose_lengths (c : PlatformConfig)
    (h : 0 ≤ c.min_height) (i : Fin 3) :
    tripodLength c 0 0 0 0 i = c.min_height := by
  have hs : Real.sqrt (c.min_height ^ 2) = c.min_height := Real.sqrt_sq h
  fin_cases i <;>
  · simp only [tripodLength, tripodRotated, tripodPlatformPoint, tripodBasePoint,
      rotationApply_zero, vnorm]
    rw [← hs]
    norm_num

/-- Witness for C1 (amended) at the default platform geometry. -/
theorem tripod_level_pose_lengths_witness :
    (0 : ℝ) ≤ platformConfigDefault.min_height ∧
    tripodLength platformConfigDefault 0 0 0 0 0 = platformConfigDefault.min_height :=
  ⟨by norm_num [platformConfigDefault],
    tripod_level_pose_lengths platformConfigDefault
      (by norm_num [platformConfigDefault]) 0⟩

/-- C1 counterexample: on the 6-leg/3-platform-point paired topology
(`"6-3"`) with the default geometry, the level pose gives leg 0 the length
`√100900 ≈ 317.6 mm` — more than 100 mm away from the 150 mm nominal leg
length (so not equal within any floating-point epsilon), and the solution
is not even reported valid (contradicting the repository's own
`test_calculate_neutral_pose`). -/
theorem api_level_pose_counterexample :
    100 < |apiLegLength defaultApiGeometry (getConfigurationMapping "6-3")
        { x := 0, y := 0, z := 0, roll := 0, pitch := 0, yaw := 0 } 0
      - defaultApiGeometry.nominal_leg_length| ∧
    ¬ ApiValid defaultApiGeometry (getConfigurationMapping "6-3")
        { x := 0, y := 0, z := 0, roll := 0, pitch := 0, yaw := 0 } := by
  have hcm : getConfigurationMapping "6-3" = ⟨6, 3, [0, 0, 1, 1, 2, 2]⟩ := by rfl
  have hleg : apiLegLength defaultApiGeometry (getConfigurationMapping "6-3")
      { x := 0, y := 0, z := 0, roll := 0, pitch := 0, yaw := 0 } 0
      = Real.sqrt 100900 := by
    rw [hcm]
    simp only [apiLegLength, apiRotatedPoint, apiPlatformAnchor, apiTranslation,
      generatePoint, apiPlatformOffset, deg2rad, vnorm]
    norm_num [rotationApply_zero, Real.cos_pi_div_three, Real.sin_pi_div_three,
      defaultApiGeometry]
    ring_nf
    norm_num
  have h250 : (250 : ℝ) < Real.sqrt 100900 :=
    (Real.lt_sqrt (by norm_num)).mpr (by norm_num)
  constructor
  · rw [hleg]
    have : (0 : ℝ) ≤ Real.sqrt 100900 - defaultApiGeometry.nominal_leg_length := by
      simp only [defaultApiGeometry]
      linarith
    rw [abs_of_nonneg this]
    simp only [defaultApiGeometry]
    linarith
  · intro hv
    have h0 := hv 0 (by rw [hcm]; norm_num)
    rw [hleg] at h0
    have h200 := h0.2
    simp only [defaultApiGeometry] at h200
    linarith

/-- C7 counterexample: on the tripod solver with the default geometry, a
90° pitch together with a 0.1 m height offset transforms platform anchor 0
to a point different from the spec's
`R·(anchor − pivot) + pivot + translation` with pivot at the nominal
height — the code pivots about the *offset* center instead. -/
theorem tripod_transform_counterexample :
    tripodRotated platformConfigDefault 0 (Real.pi / 2) 0 (1/10)
        (tripodPlatformPoint platformConfigDefault 0)
      ≠ specRotatedAnchor 0 (Real.pi / 2) 0
          (0, 0, platformConfigDefault.min_height) (0, 0, 1/10)
          (tripodPlatformPoint platformConfigDefault 0) := by
  intro h
  have h1 := congrArg Prod.fst h
  simp only [tripodRotated, specRotatedAnchor, tripodPlatformPoint,
    rotationApply, rotX, rotY, rotZ, platformConfigDefault,
    Real.cos_pi_div_two, Real.sin_pi_div_two] at h1
  norm_num at h1

/-- C7 amended: the Stewart solver realizes the spec's transform
`R·(anchor − pivot) + pivot + translation` with pivot at the nominal
platform height; the tripod solver realizes it with the pivot displaced by
the height offset (and no separate translation); and the HTTP solver
(which rotates the anchor, with its z preset to the nominal leg length,
about the base origin, and adds the nominal length again inside the
translation) exceeds the spec's transform exactly by the rotated
nominal-height vector `R·(0,0,L)` — the platform height counted twice. -/
theorem solver_transform_shapes (c : PlatformConfig)
    (roll pitch yaw xo yo zo hoff : ℝ) (geom : ApiGeometry) (pose : ApiPose)
    (p : Vec3) :
    stewartRotated c roll pitch yaw xo yo zo p
      = specRotatedAnchor roll pitch yaw (0, 0, c.min_height) (xo, yo, zo) p ∧
    tripodRotated c roll pitch yaw hoff p
      = specRotatedAnchor roll pitch yaw (0, 0, c.min_height + hoff) (0, 0, 0) p ∧
    apiRotatedPoint geom pose p
      = specRotatedAnchor (deg2rad pose.roll) (deg2rad pose.pitch) (deg2rad pose.yaw)
          (0, 0, geom.nominal_leg_length) (pose.x, pose.y, pose.z) p
        + rotationApply (deg2rad pose.roll) (deg2rad pose.pitch) (deg2rad pose.yaw)
            (0, 0, geom.nominal_leg_length) := by
  obtain ⟨p1, p2, p3⟩ := p
  refine ⟨?_, ?_, ?_⟩ <;>
  · apply vec3_eq <;>
    · simp only [stewartRotated, tripodRotated, apiRotatedPoint, specRotatedAnchor,
        apiTranslation, rotationApply, rotX, rotY, rotZ, Prod.fst_add, Prod.snd_add,
        Prod.fst_sub, Prod.snd_sub]
      ring

/-- C8 amended: in an auto-leveling cycle whose deadband and tilt checks
both fire but whose solver solution is invalid, no motion command is
issued — yet `last_orientation` is still updated to the sample (the loop
ignores `level_once`'s return value). -/
theorem invalid_cycle_no_motion_updates_last
    (solveFn : OrientationSample → List ℝ) (SolveValid : OrientationSample → Prop)
    (pol : LevelingPolicy) (s s2 : OrchState) (a : OrientationSample)
    (cmd : Option (List ℝ))
    (hstep : AutoLevelCycle solveFn SolveValid pol s a s2 cmd)
    (he : s.leveling_enabled = true)
    (hd : pol.deadband < sampleDiffNorm a s.last_orientation)
    (ht : pol.level_threshold < tiltMagnitude a)
    (hinv : ¬ SolveValid a) :
    cmd = none ∧ s2 = { s with last_orientation := a } := by
  cases hstep with
  | skip_disabled h => simp [he] at h
  | skip_deadband he2 hd2 => exact absurd hd (not_lt.mpr hd2)
  | skip_below_threshold he2 hd2 ht2 => exact absurd ht (not_lt.mpr ht2)
  | act_valid he2 hd2 ht2 hv => exact absurd hv hinv
  | act_invalid he2 hd2 ht2 hv => exact ⟨rfl, rfl⟩

/-- Witness for C8 (amended) with a concrete never-valid solver
instantiation and a 10° roll sample against a zero last-acted sample. -/
theorem invalid_cycle_no_motion_updates_last_witness :
    (none : Option (List ℝ)) = none ∧
    ({ last_orientation := { roll := 10, pitch := 0, yaw := 0 },
       leveling_enabled := true } : OrchState)
      = { ({ last_orientation := { roll := 0, pitch := 0, yaw := 0 },
             leveling_enabled := true } : OrchState) with
          last_orientation := { roll := 10, pitch := 0, yaw := 0 } } := by
  have hten : sampleDiffNorm { roll := 10, pitch := 0, yaw := 0 }
      ({ last_orientation := { roll := 0, pitch := 0, yaw := 0 },
         leveling_enabled := true } : OrchState).last_orientation = 10 := by
    simp only [sampleDiffNorm, vnorm]
    norm_num
    rw [show (100:ℝ) = 10 ^ 2 by norm_num]
    exact Real.sqrt_sq (by norm_num)
  have htilt : tiltMagnitude { roll := 10, pitch := 0, yaw := 0 } = 10 := by
    simp only [tiltMagnitude]
    norm_num
    rw [show (100:ℝ) = 10 ^ 2 by norm_num]
    exact Real.sqrt_sq (by norm_num)
  exact invalid_cycle_no_motion_updates_last (fun _ => []) (fun _ => False)
    levelingPolicyDefault _ _ _ _
    (AutoLevelCycle.act_invalid _ _ rfl
      (by rw [hten]; norm_num [levelingPolicyDefault])
      (by rw [htilt]; norm_num [levelingPolicyDefault])
      not_false)
    rfl
    (by rw [hten]; norm_num [levelingPolicyDefault])
    (by rw [htilt]; norm_num [levelingPolicyDefault])
    not_false

/-- C9: if a cycle acted on sample `a` (issued a `set_targets` command) and
the next cycle sees a sample `b` within the deadband of `a`, that cycle
issues no motion command — two samples within the deadband never trigger
two separate `set_targets` calls. -/
theorem deadband_suppresses_consecutive_commands
    (solveFn : OrientationSample → List ℝ) (SolveValid : OrientationSample → Prop)
    (pol : LevelingPolicy) (s1 s2 s3 : OrchState) (a b : OrientationSample)
    (c : List ℝ) (cmd : Option (List ℝ))
    (h1 : AutoLevelCycle solveFn SolveValid pol s1 a s2 (some c))
    (h2 : AutoLevelCycle solveFn SolveValid pol s2 b s3 cmd)
    (hab : sampleDiffNorm b a < pol.deadband) :
    cmd = none := by
  have hlast : s2.last_orientation = a := by
    cases h1 with
    | act_valid he hd ht hv => rfl
  cases h2 with
  | skip_disabled h => rfl
  | skip_deadband he hd => rfl
  | skip_below_threshold he hd ht => rfl
  | act_valid he hd ht hv =>
      rw [hlast] at hd
      exact absurd hd (not_lt.mpr hab.le)
  | act_invalid he hd ht hv => rfl

/-- Witness for C9: an acted-upon 10° roll sample followed by the identical
sample (distance 0, inside the 0.5° deadband) yields no second command. -/
theorem deadband_suppresses_consecutive_commands_witness :
    (none : Option (List ℝ)) = none := by
  have hten : sampleDiffNorm { roll := 10, pitch := 0, yaw := 0 }
      ({ last_orientation := { roll := 0, pitch := 0, yaw := 0 },
         leveling_enabled := true } : OrchState).last_orientation = 10 := by
    simp only [sampleDiffNorm, vnorm]
    norm_num
    rw [show (100:ℝ) = 10 ^ 2 by norm_num]
    exact Real.sqrt_sq (by norm_num)
  have htilt : tiltMagnitude { roll := 10, pitch := 0, yaw := 0 } = 10 := by
    simp only [tiltMagnitude]
    norm_num
    rw [show (100:ℝ) = 10 ^ 2 by norm_num]
    exact Real.sqrt_sq (by norm_num)
  have hzero : sampleDiffNorm { roll := 10, pitch := 0, yaw := 0 }
      ({ last_orientation := { roll := 10, pitch := 0, yaw := 0 },
         leveling_enabled := true } : OrchState).last_orientation = 0 := by
    simp [sampleDiffNorm, vnorm]
  exact deadband_suppresses_consecutive_commands (fun _ => [0]) (fun _ => True)
    levelingPolicyDefault
    { last_orientation := { roll := 0, pitch := 0, yaw := 0 }, leveling_enabled := true }
    _ _ _ { roll := 10, pitch := 0, yaw := 0 } [0] none
    (AutoLevelCycle.act_valid _ _ rfl
      (by rw [hten]; norm_num [levelingPolicyDefault])
      (by rw [htilt]; norm_num [levelingPolicyDefault])
      trivial)
    (AutoLevelCycle.skip_deadband _ _ rfl
      (by rw [hzero]; norm_num [levelingPolicyDefault]))
    (by rw [hzero]; norm_num [levelingPolicyDefault])

lemma tripod_flip_length_exceeds :
    platformConfigDefault.min_height + platformConfigDefault.actuator_stroke
      < tripodLength platformConfigDefault 0 Real.pi 0 0 0 := by
  simp only [tripodLength, tripodRotated, tripodPlatformPoint, tripodBasePoint,
    vnorm, rotationApply, rotX, rotY, rotZ, platformConfigDefault,
    Prod.fst_add, Prod.snd_add, Prod.fst_sub, Prod.snd_sub,
    Real.cos_pi, Real.sin_pi, Real.cos_zero, Real.sin_zero]
  apply (Real.lt_sqrt (by norm_num)).mpr
  norm_num

lemma tripod_flip_invalid :
    ¬ TripodValid platformConfigDefault 0 Real.pi 0 0 := by
  intro hv
  exact absurd (hv 0).2 (not_le.mpr tripod_flip_length_exceeds)

lemma tripod_command_invalid_flip :
    ¬ TripodCommandValid platformConfigDefault
        { roll := 0, pitch := -180, yaw := 0 } := by
  have hang1 : -(deg2rad ({ roll := 0, pitch := -180, yaw := 0 }
      : OrientationSample).roll) = 0 := by
    show -((0:ℝ) * Real.pi / 180) = 0
    ring
  have hang2 : -(deg2rad ({ roll := 0, pitch := -180, yaw := 0 }
      : OrientationSample).pitch) = Real.pi := by
    show -((-180:ℝ) * Real.pi / 180) = Real.pi
    ring
  unfold TripodCommandValid
  rw [hang1, hang2]
  exact tripod_flip_invalid

/-- C8 counterexample: with the tripod solver at the default geometry and
the default leveling policy, the sample (roll 0°, pitch −180°) passes the
deadband and tilt checks but its correction is outside the actuator
limits: the cycle issues no motion command, yet `last_orientation` is
still updated from (0,0,0) to the new sample — the claim's "recorded only
when set_targets was invoked" fails. -/
theorem auto_level_invalid_cycle_counterexample :
    AutoLevelCycle (tripodCommand platformConfigDefault)
      (TripodCommandValid platformConfigDefault) levelingPolicyDefault
      { last_orientation := { roll := 0, pitch := 0, yaw := 0 },
        leveling_enabled := true }
      { roll := 0, pitch := -180, yaw := 0 }
      { last_orientation := { roll := 0, pitch := -180, yaw := 0 },
        leveling_enabled := true }
      none ∧
    ({ roll := 0, pitch := -180, yaw := 0 } : OrientationSample)
      ≠ { roll := 0, pitch := 0, yaw := 0 } := by
  constructor
  · refine AutoLevelCycle.act_invalid _ _ rfl ?_ ?_ tripod_command_invalid_flip
    · show levelingPolicyDefault.deadband
        < sampleDiffNorm { roll := 0, pitch := -180, yaw := 0 }
            { roll := 0, pitch := 0, yaw := 0 }
      have h180 : sampleDiffNorm { roll := 0, pitch := -180, yaw := 0 }
          { roll := 0, pitch := 0, yaw := 0 } = 180 := by
        simp only [sampleDiffNorm, vnorm]
        norm_num
        rw [show (32400:ℝ) = 180 ^ 2 by norm_num]
        exact Real.sqrt_sq (by norm_num)
      rw [h180]
      norm_num [levelingPolicyDefault]
    · show levelingPolicyDefault.level_threshold
        < tiltMagnitude { roll := 0, pitch := -180, yaw := 0 }
      have h180 : tiltMagnitude { roll := 0, pitch := -180, yaw := 0 } = 180 := by
        simp only [tiltMagnitude]
        norm_num
        rw [show (32400:ℝ) = 180 ^ 2 by norm_num]
        exact Real.sqrt_sq (by norm_num)
      rw [h180]
      norm_num [levelingPolicyDefault]
  · intro h
    have hp := congrArg OrientationSample.pitch h
    norm_num at hp

end LevelingSim
